import Mathlib

/-!
# Verification of the OmNomNom recipe-scaling and shopping-list-aggregation core

Shallow embedding of the two algorithmic endpoints of the repository:

* `src/pages/api/recipes/[id]/scale.ts`  — the Recipe Scaler,
* `src/pages/api/shopping-lists/generate.ts` — the Shopping List Aggregator.

JavaScript numbers are modelled as rationals (`ℚ`); a nullable numeric
column is `Option ℚ`, with `none` standing for SQL `NULL` / JS `null`,
which JavaScript arithmetic coerces to `0`.  `Math.round` is
`⌊x + 1/2⌋` (round half toward +∞), exactly JS semantics on the
rationals.  Strings use Lean `String` with `toLower`, `trim` and a
substring test mirroring `String.prototype.includes`.
-/

namespace OmNomNom

/-- JS `Math.round`: round half toward +∞, i.e. `⌊x + 1/2⌋`. -/
def jsRound (x : ℚ) : ℤ := ⌊x + 1/2⌋

/-- `Math.round(x * 100) / 100` — the "round to 2 decimals" idiom used by
both endpoints. -/
def round2 (x : ℚ) : ℚ := (jsRound (x * 100) : ℚ) / 100

/-- Modelled from the spec: "round2 means round-half-away-from-zero to 2
decimal places".  Used only to compare the spec's rounding rule with the
code's `round2`. -/
def round2away (x : ℚ) : ℚ :=
  if 0 ≤ x then ((⌊x * 100 + 1/2⌋ : ℤ) : ℚ) / 100
  else -(((⌊-x * 100 + 1/2⌋ : ℤ) : ℚ) / 100)

/-- JS coercion of a nullable numeric value in arithmetic: `null` is `0`. -/
def jsVal : Option ℚ → ℚ
  | some q => q
  | none => 0

/-- JS truthiness of a nullable string: `null` and `""` are falsy. -/
def jsStrTruthy : Option String → Bool
  | some s => s ≠ ""
  | none => false

/-- `String.prototype.toLowerCase`, modelled character-wise (ASCII
letters, which is all the repository's fixtures use). -/
def jsToLower (s : String) : String := ⟨s.data.map Char.toLower⟩

/-- `String.prototype.trim`: strip leading and trailing whitespace. -/
def jsTrim (s : String) : String :=
  ⟨((s.data.dropWhile Char.isWhitespace).reverse.dropWhile
      Char.isWhitespace).reverse⟩

/-- Does `pat` occur at the head of `s`? -/
def listStartsWith : List Char → List Char → Bool
  | [], _ => true
  | _ :: _, [] => false
  | p :: ps, c :: cs => p = c && listStartsWith ps cs

/-- Does `pat` occur as a contiguous run anywhere in `s`? -/
def listContains (pat : List Char) : List Char → Bool
  | [] => pat.isEmpty
  | c :: cs => listStartsWith pat (c :: cs) || listContains pat cs

/-- `String.prototype.includes(pat)`: substring containment. -/
def jsIncludes (pat s : String) : Bool := listContains pat.data s.data

/-- JS `Number.prototype.toString` for a value that equals `z / 100`
(every quantity the endpoints stringify has been rounded to 2 decimals):
shortest decimal form, e.g. `400 ↦ "4"`, `150 ↦ "1.5"`, `5 ↦ "0.05"`. -/
def renderCenti (z : ℤ) : String :=
  let sign := if z < 0 then "-" else ""
  let n := z.natAbs
  let whole := n / 100
  let frac := n % 100
  if frac = 0 then sign ++ toString whole
  else if frac % 10 = 0 then sign ++ toString whole ++ "." ++ toString (frac / 10)
  else if frac < 10 then sign ++ toString whole ++ ".0" ++ toString frac
  else sign ++ toString whole ++ "." ++ toString frac

/-- Stringify a 2-decimal rounded quantity the way JS does. -/
def jsNumToString (q : ℚ) : String := renderCenti (jsRound (q * 100))

/-- A JS number: finite rational, `NaN`, or an infinity. -/
inductive JSNum where
  | finite (q : ℚ)
  | nan
  | posInf
  | negInf
deriving DecidableEq, Repr

/-- The `desired_servings` field of a parsed JSON body: a number, some
non-number value, or absent (`undefined`). -/
inductive BodyVal where
  | num (n : JSNum)
  | nonNumber
  | absent
deriving DecidableEq, Repr

/-- JS truthiness of a number: `0` and `NaN` are falsy. -/
def jsNumTruthy : JSNum → Bool
  | .finite q => q ≠ 0
  | .nan => false
  | .posInf => true
  | .negInf => true

/-- JS comparison `n <= 0` (false for `NaN`). -/
def jsLeZero : JSNum → Bool
  | .finite q => q ≤ 0
  | .nan => false
  | .posInf => false
  | .negInf => true

/-- JS comparison `n > 1000` (false for `NaN`). -/
def jsGtThousand : JSNum → Bool
  | .finite q => 1000 < q
  | .nan => false
  | .posInf => true
  | .negInf => false

/-- Step 2 of `POST /api/recipes/:id/scale`: validation of
`body.desired_servings`.  Mirrors the three `jsonError` branches of the
source; every failure names the field `desired_servings`, which is the
error payload here.

```
if (!body.desired_servings || typeof body.desired_servings !== 'number') ...
if (body.desired_servings <= 0) ...
if (body.desired_servings > 1000) ...
```
-/
def validateDesiredServings : BodyVal → Except String ℚ
  | .num n =>
      if jsNumTruthy n = false then .error "desired_servings"
      else if jsLeZero n then .error "desired_servings"
      else if jsGtThousand n then .error "desired_servings"
      else
        match n with
        | .finite q => .ok q
        | _ => .error "desired_servings" -- unreachable: NaN is falsy, infinities fail the range checks
  | _ => .error "desired_servings"

/-- One row of the Step 6 ingredient fetch in `scale.ts`
(`recipe_ingredients` joined with `ingredients`).  `quantity` is kept
nullable so that claims about lines with no numeric quantity are
statable; the schema declares it `not null`, and JS arithmetic coerces a
`null` to `0`. -/
structure RecipeIngredientLine where
  id : String
  quantity : Option ℚ
  quantity_display : Option String
  unit : String
  order_index : ℤ
  name : String
deriving DecidableEq, Repr

/-- `ScaledIngredientDTO` as built in Step 8 of `scale.ts`. -/
structure ScaledIngredientDTO where
  name : String
  original_quantity : Option ℚ
  scaled_quantity : ℚ
  quantity_display : String
  unit : String
  notes : Option String
deriving DecidableEq, Repr

/-- The Step 8 `map` body of `scale.ts`, for one ingredient line:

```
const scaledQuantity = ri.quantity * scalingFactor;
const roundedQuantity = Math.round(scaledQuantity * 100) / 100;
let quantityDisplay;
if (ri.quantity_display) { quantityDisplay = ri.quantity_display; }
else { quantityDisplay = roundedQuantity.toString(); }
let notes = null;
if (ri.quantity_display && (ri.quantity_display.includes('taste')
    || ri.quantity_display.includes('pinch'))) {
  notes = '*Not scaled - adjust to taste';
}
```
-/
def scaleLine (scalingFactor : ℚ) (ri : RecipeIngredientLine) : ScaledIngredientDTO :=
  let scaledQuantity := jsVal ri.quantity * scalingFactor
  let roundedQuantity := round2 scaledQuantity
  let quantityDisplay :=
    if jsStrTruthy ri.quantity_display then ri.quantity_display.getD ""
    else jsNumToString roundedQuantity
  let notes :=
    if jsStrTruthy ri.quantity_display &&
        (jsIncludes "taste" (ri.quantity_display.getD "") ||
         jsIncludes "pinch" (ri.quantity_display.getD "")) then
      some "*Not scaled - adjust to taste"
    else none
  { name := ri.name
    original_quantity := ri.quantity
    scaled_quantity := roundedQuantity
    quantity_display := quantityDisplay
    unit := ri.unit
    notes := notes }

/-- `ScaledRecipeDTO` as built in Step 9 of `scale.ts`. -/
structure ScaledRecipeDTO where
  original_servings : ℚ
  desired_servings : ℚ
  scaling_factor : ℚ
  scaled_ingredients : List ScaledIngredientDTO
deriving DecidableEq, Repr

/-- The computational core of `POST /api/recipes/:id/scale` (Steps 2, 7,
8, 9): validate `desired_servings`, compute the unrounded
`scalingFactor = desired_servings / recipe.servings`, scale each fetched
line with it (`(recipeIngredients || []).map`), and report the factor
rounded to 2 decimals.  The only error path of the core is the Step 2
validation; its payload is the offending field name. -/
def scaleRecipe (servings : ℚ) (body : BodyVal)
    (recipeIngredients : Option (List RecipeIngredientLine)) :
    Except String ScaledRecipeDTO :=
  match validateDesiredServings body with
  | .error f => .error f
  | .ok desired =>
      let scalingFactor := desired / servings
      let scaledIngredients := (recipeIngredients.getD []).map (scaleLine scalingFactor)
      .ok { original_servings := servings
            desired_servings := desired
            scaling_factor := round2 scalingFactor
            scaled_ingredients := scaledIngredients }

/-- Helper of `generate.ts`:

```
function normalizeIngredientName(name) { return name.toLowerCase().trim(); }
```
-/
def normalizeIngredientName (name : String) : String := jsTrim (jsToLower name)

/-- One row of the Step 6 ingredient fetch in `generate.ts`
(`recipe_id, quantity, unit, ingredients(id, name)`).  The select does
NOT fetch `quantity_display`; the field is carried here, never read by
the aggregation, so that claims about text-only-quantity lines (rows
whose `quantity` is missing while `quantity_display` is set) are
statable. -/
structure AggLine where
  recipe_id : String
  quantity : Option ℚ
  unit : String
  name : String
  quantity_display : Option String
deriving DecidableEq, Repr

/-- One value of the Step 7 `combinedIngredients` map in `generate.ts`. -/
structure CombinedEntry where
  name : String
  quantity : Option ℚ
  unit : String
  recipe_ids : List String
deriving DecidableEq, Repr

/-- The grouping key of Step 7:
`const key = `${normalizedName}::${ri.unit.toLowerCase()}`;`
(note: the unit is lowercased but NOT trimmed). -/
def groupKey (ri : AggLine) : String :=
  normalizeIngredientName ri.name ++ "::" ++ jsToLower ri.unit

/-- `Map.prototype.get` over the insertion-ordered association list that
models the JS `Map`. -/
def mapLookup (key : String) : List (String × CombinedEntry) → Option CombinedEntry
  | [] => none
  | kv :: rest => if kv.1 = key then some kv.2 else mapLookup key rest

/-- `Set.prototype.add` on an insertion-ordered list of recipe ids. -/
def setAdd (l : List String) (x : String) : List String :=
  if x ∈ l then l else l ++ [x]

/-- The Step 7 `forEach` body of `generate.ts`, for one fetched line:

```
const normalizedName = normalizeIngredientName(ri.ingredients.name);
const key = `${normalizedName}::${ri.unit.toLowerCase()}`;
if (combinedIngredients.has(key)) {
  const existing = combinedIngredients.get(key)!;
  existing.quantity += ri.quantity;
  existing.recipe_ids.add(ri.recipe_id);
} else {
  combinedIngredients.set(key, { name, quantity, unit, recipe_ids });
}
```

A JS `Map` keeps insertion order and updates in place, so the model
updates the matching entry where it stands and appends new keys at the
end.  `existing.quantity += ri.quantity` coerces a `null` on either side
to `0` and stores a number. -/
def addLine (m : List (String × CombinedEntry)) (ri : AggLine) :
    List (String × CombinedEntry) :=
  let key := groupKey ri
  match mapLookup key m with
  | some _ =>
      m.map fun kv =>
        if kv.1 = key then
          (kv.1, { kv.2 with
                    quantity := some (jsVal kv.2.quantity + jsVal ri.quantity)
                    recipe_ids := setAdd kv.2.recipe_ids ri.recipe_id })
        else kv
  | none =>
      m ++ [(key, { name := ri.name
                    quantity := ri.quantity
                    unit := ri.unit
                    recipe_ids := [ri.recipe_id] })]

/-- Step 7 of `generate.ts`: fold all fetched lines into the
`combinedIngredients` map (`(recipeIngredients || []).forEach`). -/
def combineIngredients (recipeIngredients : Option (List AggLine)) :
    List (String × CombinedEntry) :=
  (recipeIngredients.getD []).foldl addLine []

/-- One element of `itemsToInsert` in Step 8 of `generate.ts` (the fields
the algorithm computes; `source_recipe_id` and `category` are the
constants `null`, `shopping_list_id` and `created_at` are ambient). -/
structure ItemToInsert where
  name : String
  quantity : ℚ
  unit : String
  is_checked : Bool
deriving DecidableEq, Repr

/-- Step 8 of `generate.ts`:

```
const itemsToInsert = Array.from(combinedIngredients.values()).map(item => ({
  ..., name: item.name,
  quantity: Math.round(item.quantity * 100) / 100,
  unit: item.unit, ..., is_checked: false, ... }));
```
(`item.quantity * 100` coerces a never-merged `null` quantity to `0`). -/
def itemsToInsert (m : List (String × CombinedEntry)) : List ItemToInsert :=
  m.map fun kv =>
    { name := kv.2.name
      quantity := round2 (jsVal kv.2.quantity)
      unit := kv.2.unit
      is_checked := false }

/-- The computational core of `POST /api/shopping-lists/generate`
(Steps 7 and 8): group, sum, round. -/
def generateItems (recipeIngredients : Option (List AggLine)) : List ItemToInsert :=
  itemsToInsert (combineIngredients recipeIngredients)

/-- `items_added` of the Step 10 response: the number of inserted rows.
When `itemsToInsert` is empty the insert is skipped and `addedItems`
stays `[]`; when it is non-empty the insert returns the inserted rows,
one per element.  Either way the count is the length of
`generateItems`. -/
def itemsAdded (recipeIngredients : Option (List AggLine)) : Nat :=
  (generateItems recipeIngredients).length

/-! ## Helper lemmas -/

/-- A finite `desired_servings` in `(0, 1000]` passes Step 2 validation. -/
lemma validateDesiredServings_ok (d : ℚ) (h0 : 0 < d) (h1 : d ≤ 1000) :
    validateDesiredServings (.num (.finite d)) = .ok d := by
  simp [validateDesiredServings, jsNumTruthy, jsLeZero, jsGtThousand,
    h0.ne', not_lt.mpr h1, not_le.mpr h0]

/-- Rounding an integer number of hundredths with `jsRound` is exact. -/
lemma jsRound_intCast (z : ℤ) : jsRound (z : ℚ) = z := by
  have : ((z : ℚ) + 1/2) = (z : ℚ) + 1/2 := rfl
  simp [jsRound]
  norm_num

/-- On nonnegative inputs, JS `Math.round`-based 2-decimal rounding
agrees with the spec's round-half-away-from-zero rule. -/
lemma round2_eq_round2away (x : ℚ) (hx : 0 ≤ x) : round2 x = round2away x := by
  simp [round2, round2away, jsRound, hx]

/-- `round2` is the identity on exact hundredths. -/
lemma round2_centi (z : ℤ) : round2 ((z : ℚ) / 100) = (z : ℚ) / 100 := by
  have : (z : ℚ) / 100 * 100 = (z : ℚ) := by ring
  rw [round2, this, jsRound_intCast]

/-! ## C9 — empty aggregation input -/

/-- C9: given no ingredient lines (a `null` fetch result or an empty
list), the aggregation core produces an empty item list — the Step 8
insert is skipped — and `items_added` is reported as `0`; there is no
error path in the grouping code. -/
theorem aggregate_empty_is_empty :
    generateItems none = [] ∧ generateItems (some []) = [] ∧
    itemsAdded none = 0 ∧ itemsAdded (some []) = 0 :=
  ⟨rfl, rfl, rfl, rfl⟩

/-! ## C10 — scaling a recipe with no ingredient lines -/

/-- C10: the Scaler accepts a recipe whose ingredient fetch returns
`null` or an empty list: given a `desired_servings` value that passes
validation it succeeds, and the resulting `scaled_ingredients` list is
empty. -/
theorem scale_empty_ingredients (servings d : ℚ) (body : BodyVal)
    (hv : validateDesiredServings body = .ok d) :
    scaleRecipe servings body none =
      .ok ⟨servings, d, round2 (d / servings), []⟩ ∧
    scaleRecipe servings body (some []) =
      .ok ⟨servings, d, round2 (d / servings), []⟩ := by
  constructor <;> simp [scaleRecipe, hv]

/-- Witness for C10 at `servings = 4`, `desired_servings = 8`. -/
theorem scale_empty_ingredients_witness :
    scaleRecipe 4 (.num (.finite 8)) none =
      .ok ⟨4, 8, round2 (8 / 4), []⟩ ∧
    scaleRecipe 4 (.num (.finite 8)) (some []) =
      .ok ⟨4, 8, round2 (8 / 4), []⟩ :=
  scale_empty_ingredients 4 8 (.num (.finite 8))
    (validateDesiredServings_ok 8 (by norm_num) (by norm_num))

/-! ## C6 — `desired_servings` validation -/

/-- Step 2 validation either fails naming `desired_servings`, exactly
when the value is not a finite number in `(0, 1000]`, or succeeds with
that number. -/
lemma validateDesiredServings_cases (v : BodyVal) :
    (validateDesiredServings v = .error "desired_servings" ∧
      ¬ ∃ q : ℚ, v = .num (.finite q) ∧ 0 < q ∧ q ≤ 1000) ∨
    (∃ q : ℚ, validateDesiredServings v = .ok q ∧
      v = .num (.finite q) ∧ 0 < q ∧ q ≤ 1000) := by
  rcases v with n | _ | _
  · rcases n with q | _ | _ | _
    · by_cases h0 : 0 < q
      · by_cases h1 : q ≤ 1000
        · exact .inr ⟨q, validateDesiredServings_ok q h0 h1, rfl, h0, h1⟩
        · refine .inl ⟨?_, ?_⟩
          · simp [validateDesiredServings, jsNumTruthy, jsLeZero,
              jsGtThousand, h0.ne', not_le.mpr h0, not_le.1 h1]
          · rintro ⟨q2, hq2, _, hle⟩
            simp only [BodyVal.num.injEq, JSNum.finite.injEq] at hq2
            exact h1 (hq2 ▸ hle)
      · refine .inl ⟨?_, ?_⟩
        · rcases eq_or_lt_of_le (not_lt.1 h0) with h | h
          · simp [validateDesiredServings, jsNumTruthy, h]
          · simp [validateDesiredServings, jsNumTruthy, jsLeZero, h.ne,
              h.le]
        · rintro ⟨q2, hq2, hpos, _⟩
          simp only [BodyVal.num.injEq, JSNum.finite.injEq] at hq2
          exact h0 (hq2 ▸ hpos)
    · exact .inl ⟨by simp [validateDesiredServings, jsNumTruthy],
        by rintro ⟨q, hq, _⟩; simp at hq⟩
    · exact .inl ⟨by simp [validateDesiredServings, jsNumTruthy, jsLeZero,
        jsGtThousand], by rintro ⟨q, hq, _⟩; simp at hq⟩
    · exact .inl ⟨by simp [validateDesiredServings, jsNumTruthy, jsLeZero],
        by rintro ⟨q, hq, _⟩; simp at hq⟩
  · exact .inl ⟨rfl, by rintro ⟨q, hq, _⟩; simp at hq⟩
  · exact .inl ⟨rfl, by rintro ⟨q, hq, _⟩; simp at hq⟩

/-- C6: the scale operation fails with a `ValidationError` naming the
field `desired_servings` exactly when the submitted value is not a
finite number in `(0, 1000]` (missing, non-numeric, `NaN`, an infinity,
`≤ 0`, or `> 1000`); for every finite value in that range it succeeds
instead of failing on that field. -/
theorem desired_servings_validation (servings : ℚ)
    (ri : Option (List RecipeIngredientLine)) (v : BodyVal) :
    (scaleRecipe servings v ri = .error "desired_servings" ↔
      ¬ ∃ q : ℚ, v = .num (.finite q) ∧ 0 < q ∧ q ≤ 1000) ∧
    ((∃ r, scaleRecipe servings v ri = .ok r) ↔
      ∃ q : ℚ, v = .num (.finite q) ∧ 0 < q ∧ q ≤ 1000) := by
  rcases validateDesiredServings_cases v with ⟨he, hn⟩ | ⟨q, hok, hv, h0, h1⟩
  · constructor
    · simp [scaleRecipe, he, hn]
    · simp [scaleRecipe, he, hn]
  · constructor
    · simp only [scaleRecipe, hok, not_exists, not_and]
      constructor
      · intro h
        cases h
      · intro h
        exact absurd h1 (h q hv h0)
    · simp only [scaleRecipe, hok]
      exact ⟨fun _ => ⟨q, hv, h0, h1⟩, fun _ => ⟨_, rfl⟩⟩

/-! ## C5 — scaled quantities use the unrounded factor and
round-half-away-from-zero -/

/-- C5: for a recipe with `servings > 0` and a valid `desiredServings`,
the operation scales every fetched line with the UNROUNDED factor
`desiredServings / servings`; each line's `scaled_quantity` is
`round2away (quantity * factor)` (round half away from zero to 2
decimals, which on these nonnegative values is what
`Math.round(x*100)/100` computes), and the reported `scaling_factor` is
the factor rounded to 2 decimals. -/
theorem scaled_quantity_formula (servings d q : ℚ)
    (ri : RecipeIngredientLine) (lines : List RecipeIngredientLine)
    (hs : 0 < servings) (hd0 : 0 < d) (hd1 : d ≤ 1000)
    (hq : ri.quantity = some q) (hq0 : 0 ≤ q) :
    scaleRecipe servings (.num (.finite d)) (some lines) =
      .ok ⟨servings, d, round2away (d / servings),
            lines.map (scaleLine (d / servings))⟩ ∧
    (scaleLine (d / servings) ri).scaled_quantity =
      round2away (q * (d / servings)) := by
  have hfac : (0 : ℚ) ≤ d / servings := div_nonneg hd0.le hs.le
  constructor
  · simp [scaleRecipe, validateDesiredServings_ok d hd0 hd1,
      round2_eq_round2away _ hfac]
  · simp only [scaleLine, hq, jsVal]
    exact round2_eq_round2away _ (mul_nonneg hq0 hfac)

/-- Witness for C5: scaling a 4-serving recipe with one
1-cup-of-sugar line to 6 servings. -/
theorem scaled_quantity_formula_witness :
    scaleRecipe 4 (.num (.finite 6))
        (some [⟨"i1", some 1, none, "cup", 0, "sugar"⟩]) =
      .ok ⟨4, 6, round2away (6 / 4),
            [⟨"i1", some 1, none, "cup", 0, "sugar"⟩].map (scaleLine (6 / 4))⟩ ∧
    (scaleLine (6 / 4) ⟨"i1", some 1, none, "cup", 0, "sugar"⟩).scaled_quantity =
      round2away (1 * (6 / 4)) :=
  scaled_quantity_formula 4 6 1 _ _ (by norm_num) (by norm_num) (by norm_num)
    rfl (by norm_num)

/-! ## C7 — scaling identity -/

/-- C7 counterexample: the claim quantifies over every recipe with
`servings > 0`, but identity scaling a recipe with `servings = 2000`
fails `desired_servings` validation (the 1000 cap) instead of returning
`scaling_factor = 1`; and an ingredient quantity of `0.005` (more than
2 fraction digits) drifts to `0.01` under the identity scale. -/
theorem scaling_identity_cex :
    scaleRecipe 2000 (.num (.finite 2000)) (some []) =
      .error "desired_servings" ∧
    scaleRecipe 4 (.num (.finite 4))
        (some [⟨"i1", some (1/200), none, "tsp", 0, "sugar"⟩]) =
      .ok ⟨4, 4, 1, [⟨"sugar", some (1/200), 1/100, "0.01", "tsp", none⟩]⟩ := by
  constructor
  · norm_num [scaleRecipe, validateDesiredServings, jsNumTruthy, jsLeZero,
      jsGtThousand]
  · have hv := validateDesiredServings_ok 4 (by norm_num) (by norm_num)
    have h1 : round2 (1 : ℚ) = 1 := by norm_num [round2, jsRound]
    have h2 : round2 ((200 : ℚ)⁻¹) = (100 : ℚ)⁻¹ := by
      norm_num [round2, jsRound]
    have h3 : jsNumToString ((100 : ℚ)⁻¹) = "0.01" := by
      have h4 : jsRound ((100 : ℚ)⁻¹ * 100) = 1 := by norm_num [jsRound]
      rw [jsNumToString, h4]
      rfl
    simp [scaleRecipe, hv, scaleLine, jsVal, jsStrTruthy, h1, h2, h3]

/-- C7 amended: for every recipe with `0 < servings ≤ 1000`, scaling to
`desiredServings = servings` yields a reported `scaling_factor` of `1`
and, for every ingredient whose numeric quantity is an exact multiple of
`0.01` (the precision of the `numeric(10,2)` quantity column),
`scaled_quantity` exactly equals the original quantity. -/
theorem scaling_identity (servings : ℚ) (z : ℤ)
    (ri : RecipeIngredientLine) (lines : List RecipeIngredientLine)
    (hs : 0 < servings) (hs1 : servings ≤ 1000)
    (hq : ri.quantity = some ((z : ℚ) / 100)) :
    scaleRecipe servings (.num (.finite servings)) (some lines) =
      .ok ⟨servings, servings, 1, lines.map (scaleLine 1)⟩ ∧
    (scaleLine 1 ri).scaled_quantity = (z : ℚ) / 100 ∧
    (scaleLine 1 ri).original_quantity = some ((z : ℚ) / 100) := by
  have hfac : servings / servings = 1 := div_self hs.ne'
  have h1 : round2 (1 : ℚ) = 1 := by
    have h := round2_centi 100
    norm_num at h
    exact h
  refine ⟨?_, ?_, ?_⟩
  · simp [scaleRecipe, validateDesiredServings_ok servings hs hs1, hfac, h1]
  · simp only [scaleLine, hq, jsVal, mul_one]
    exact round2_centi z
  · simp [scaleLine, hq]

/-- Witness for C7 (amended): identity-scaling a 4-serving recipe with a
`1.50`-unit line. -/
theorem scaling_identity_witness :
    scaleRecipe 4 (.num (.finite 4))
        (some [⟨"i1", some ((150 : ℤ) / 100 : ℚ), none, "cup", 0, "milk"⟩]) =
      .ok ⟨4, 4, 1,
            [⟨"i1", some ((150 : ℤ) / 100 : ℚ), none, "cup", 0, "milk"⟩].map
              (scaleLine 1)⟩ ∧
    (scaleLine 1
        ⟨"i1", some ((150 : ℤ) / 100 : ℚ), none, "cup", 0, "milk"⟩).scaled_quantity =
      ((150 : ℤ) : ℚ) / 100 ∧
    (scaleLine 1
        ⟨"i1", some ((150 : ℤ) / 100 : ℚ), none, "cup", 0, "milk"⟩).original_quantity =
      some (((150 : ℤ) : ℚ) / 100) :=
  scaling_identity 4 150 _ _ (by norm_num) (by norm_num) (by norm_num)

/-! ## C2 — lines missing both quantity and quantity_display -/

/-- C2 counterexample: given a line with neither a numeric `quantity`
nor a `quantity_display`, the scale operation does NOT fail — no
`MalformedIngredientError` exists in the code — it succeeds and emits a
scaled result for the line, with the missing quantity silently treated
as `0` (JS `null * factor` is `0`) and displayed as `"0"`. -/
theorem malformed_line_not_rejected :
    scaleRecipe 4 (.num (.finite 8))
        (some [⟨"i1", none, none, "g", 0, "salt"⟩]) =
      .ok ⟨4, 8, 2, [⟨"salt", none, 0, "0", "g", none⟩]⟩ := by
  have hv := validateDesiredServings_ok 8 (by norm_num) (by norm_num)
  have h0 : round2 (0 : ℚ) = 0 := by norm_num [round2, jsRound]
  have hf : round2 ((8 : ℚ) / 4) = 2 := by norm_num [round2, jsRound]
  have hs : jsNumToString (0 : ℚ) = "0" := by
    have h4 : jsRound ((0 : ℚ) * 100) = 0 := by norm_num [jsRound]
    rw [jsNumToString, h4]
    rfl
  simp [scaleRecipe, hv, scaleLine, jsVal, jsStrTruthy, h0, hf, hs]

/-- C2 amended: the Scaler performs no per-line validation at all.  For
every ingredient line with no numeric quantity (whatever its
`quantity_display`), the operation still succeeds — given a valid
`desired_servings` — and emits a scaled result for that line whose
`scaled_quantity` is `0`, the missing quantity being coerced to `0`. -/
theorem scale_missing_quantity_scales_zero (servings d : ℚ) (body : BodyVal)
    (ri : RecipeIngredientLine) (lines : List RecipeIngredientLine)
    (hv : validateDesiredServings body = .ok d)
    (hq : ri.quantity = none) :
    scaleRecipe servings body (some lines) =
      .ok ⟨servings, d, round2 (d / servings),
            lines.map (scaleLine (d / servings))⟩ ∧
    (scaleLine (d / servings) ri).scaled_quantity = 0 := by
  constructor
  · simp [scaleRecipe, hv]
  · have h0 : round2 (0 : ℚ) = 0 := by norm_num [round2, jsRound]
    simp [scaleLine, hq, jsVal, h0]

/-- Witness for C2 (amended) at a concrete malformed line. -/
theorem scale_missing_quantity_scales_zero_witness :
    scaleRecipe 4 (.num (.finite 8))
        (some [⟨"i2", none, none, "ml", 1, "water"⟩]) =
      .ok ⟨4, 8, round2 (8 / 4),
            [⟨"i2", none, none, "ml", 1, "water"⟩].map (scaleLine (8 / 4))⟩ ∧
    (scaleLine (8 / 4) ⟨"i2", none, none, "ml", 1, "water"⟩).scaled_quantity = 0 :=
  scale_missing_quantity_scales_zero 4 8 (.num (.finite 8)) _ _
    (validateDesiredServings_ok 8 (by norm_num) (by norm_num)) rfl

/-! ## C3 — quantity_display pass-through and the advisory note -/

/-- C3 counterexample: `"To Taste"` case-insensitively contains
`"taste"`, so the claim attaches the advisory note — but the code's
`includes` check is case-sensitive, and the line receives `notes = null`
(its display text is still passed through verbatim). -/
theorem taste_note_not_case_insensitive :
    jsIncludes "taste" (jsToLower "To Taste") = true ∧
    (scaleLine 2 ⟨"i1", some 1, some "To Taste", "", 0, "salt"⟩).quantity_display =
      "To Taste" ∧
    (scaleLine 2 ⟨"i1", some 1, some "To Taste", "", 0, "salt"⟩).notes = none :=
  ⟨rfl, rfl, rfl⟩

/-- C3 amended: for every line with a present, non-empty
`quantity_display`, the scaled result's `quantity_display` is exactly
that text (never scaled or reformatted), and `notes` equals
`"*Not scaled - adjust to taste"` if and only if the text contains the
substring `"taste"` or `"pinch"` CASE-SENSITIVELY (so `"To Taste"` and
`"A PINCH"` do not receive the note); otherwise `notes` is `null`. -/
theorem quantity_display_pass_through (factor : ℚ) (s : String)
    (ri : RecipeIngredientLine)
    (hd : ri.quantity_display = some s) (hne : s ≠ "") :
    (scaleLine factor ri).quantity_display = s ∧
    (scaleLine factor ri).notes =
      (if jsIncludes "taste" s || jsIncludes "pinch" s then
        some "*Not scaled - adjust to taste"
      else none) := by
  constructor
  · simp [scaleLine, hd, jsStrTruthy, hne]
  · simp only [scaleLine, hd, jsStrTruthy, Option.getD_some]
    by_cases h : jsIncludes "taste" s || jsIncludes "pinch" s
    · simp [h, hne]
    · simp [h, hne]

/-- Witness for C3 (amended) at the display text `"to taste"`. -/
theorem quantity_display_pass_through_witness :
    (scaleLine 2 ⟨"i3", some 1, some "to taste", "", 0, "salt"⟩).quantity_display =
      "to taste" ∧
    (scaleLine 2 ⟨"i3", some 1, some "to taste", "", 0, "salt"⟩).notes =
      (if jsIncludes "taste" "to taste" || jsIncludes "pinch" "to taste" then
        some "*Not scaled - adjust to taste"
      else none) :=
  quantity_display_pass_through 2 "to taste" _ rfl (by decide)

/-! ## C1 — the grouping key -/

/-- C1 counterexample: the two lines below have ingredient names that
are equal after lowercasing and trimming, and units (`"g"` vs `" g"`)
that are equal after lowercasing and trimming — so the claim says they
merge into one item — but the code's key only lowercases the unit
without trimming it, and the aggregation produces TWO items. -/
theorem unit_not_trimmed :
    normalizeIngredientName "Flour" = normalizeIngredientName "flour " ∧
    jsTrim (jsToLower "g") = jsTrim (jsToLower " g") ∧
    (generateItems (some [⟨"r1", some 1, "g", "Flour", none⟩,
                          ⟨"r2", some 2, " g", "flour ", none⟩])).length = 2 :=
  ⟨rfl, rfl, rfl⟩

/-- C1 amended: the grouping key that decides whether two lines merge is
`normalizeIngredientName(name) ++ "::" ++ toLowerCase(unit)` — the name
is lowercased AND trimmed, but the unit is only lowercased, never
trimmed.  Two lines whose names are equal up to case and surrounding
whitespace and whose units are equal up to case alone (whitespace
included) are merged into a single output item. -/
theorem grouping_key_merges (A B : AggLine)
    (hname : normalizeIngredientName A.name = normalizeIngredientName B.name)
    (hunit : jsToLower A.unit = jsToLower B.unit) :
    groupKey A = groupKey B ∧
    (generateItems (some [A, B])).length = 1 := by
  have hk : groupKey A = groupKey B := by
    rw [groupKey, groupKey, hname, hunit]
  refine ⟨hk, ?_⟩
  simp [generateItems, combineIngredients, itemsToInsert, addLine,
    mapLookup, hk]

/-- Witness for C1 (amended): `"Flour"`/`"  FLOUR"` with units
`"g"`/`"G"` produce one merged item. -/
theorem grouping_key_merges_witness :
    groupKey ⟨"r1", some 1, "g", "Flour", none⟩ =
      groupKey ⟨"r2", some 2, "G", "  FLOUR", none⟩ ∧
    (generateItems (some [⟨"r1", some 1, "g", "Flour", none⟩,
                          ⟨"r2", some 2, "G", "  FLOUR", none⟩])).length = 1 :=
  grouping_key_merges _ _ rfl rfl

/-! ## C4 — text-only-quantity lines in aggregation -/

/-- C4 counterexample: a text-only line (`quantity` missing,
`quantity_display = "a pinch"`) whose name+unit key matches a numeric
line is NOT kept as its own item: the aggregation merges the two into a
single item (the missing quantity contributing `0`), and the display
text appears nowhere in the output — the generate endpoint never even
selects `quantity_display`. -/
theorem text_quantity_line_merged :
    generateItems (some [⟨"r1", some 1, "g", "salt", none⟩,
                         ⟨"r2", none, "g", "salt", some "a pinch"⟩]) =
      [⟨"salt", 1, "g", false⟩] := by
  have hk : groupKey (⟨"r1", some 1, "g", "salt", none⟩ : AggLine) =
      groupKey ⟨"r2", none, "g", "salt", some "a pinch"⟩ := rfl
  have h1 : round2 (1 : ℚ) = 1 := by norm_num [round2, jsRound]
  simp [generateItems, combineIngredients, itemsToInsert, addLine,
    mapLookup, setAdd, jsVal, hk, h1]

/-- C4 amended: the aggregation has no branch for text-only-quantity
lines.  A line with no numeric quantity is grouped by the same
name+unit key as every other line; when its key matches a numeric
line's, the two merge into one item whose quantity is the numeric
line's (the missing quantity coerced to `0`), and the text-only line's
display text is discarded. -/
theorem text_quantity_no_branch (A B : AggLine)
    (hB : B.quantity = none) (hk : groupKey A = groupKey B) :
    generateItems (some [A, B]) =
      [⟨A.name, round2 (jsVal A.quantity), A.unit, false⟩] := by
  simp [generateItems, combineIngredients, itemsToInsert, addLine,
    mapLookup, setAdd, hk, hB, jsVal]

/-- Witness for C4 (amended): sugar with a numeric and a text-only
line. -/
theorem text_quantity_no_branch_witness :
    generateItems (some [⟨"r1", some 2, "tsp", "sugar", none⟩,
                         ⟨"r2", none, "tsp", "sugar", some "to taste"⟩]) =
      [⟨"sugar", round2 (jsVal (some 2)), "tsp", false⟩] :=
  text_quantity_no_branch _ _ rfl rfl

/-! ## C8 — order independence of pairwise aggregation -/

/-- The summed quantity the `combinedIngredients` map associates to a
grouping key (`none` when the key is absent). -/
def combinedQuantity (m : List (String × CombinedEntry)) (k : String) :
    Option ℚ :=
  (mapLookup k m).map fun e => jsVal e.quantity

/-- C8: aggregating `[A, B]` yields the same grouped result as
aggregating `[B, A]`: for every grouping key, the key is present in one
map iff it is present in the other, and with the same summed
quantity. -/
theorem aggregation_order_independent (A B : AggLine) (k : String) :
    combinedQuantity (combineIngredients (some [A, B])) k =
      combinedQuantity (combineIngredients (some [B, A])) k := by
  by_cases hk : groupKey A = groupKey B
  · simp only [combineIngredients, Option.getD_some, List.foldl_cons,
      List.foldl_nil, addLine, mapLookup, combinedQuantity, hk]
    by_cases hB : groupKey B = k
    · simp [mapLookup, hB, jsVal, add_comm]
    · simp [mapLookup, hB]
  · have hk2 : ¬ groupKey B = groupKey A := fun h => hk h.symm
    simp only [combineIngredients, Option.getD_some, List.foldl_cons,
      List.foldl_nil, addLine, mapLookup, combinedQuantity,
      if_neg hk, if_neg hk2]
    by_cases hA : groupKey A = k <;> by_cases hB : groupKey B = k
    · exact absurd (hA.trans hB.symm) hk
    · simp [mapLookup, hA, hB]
    · simp [mapLookup, hA, hB]
    · simp [mapLookup, hA, hB]

end OmNomNom
